import Mathlib

/-!
Verification of the momentum trading bot against its specification.

The Python sources are shallowly embedded: floats become exact rationals
(`ℚ`), dataclasses become structures, raising/returning paths of effectful
code become explicit outcome values, and the exchange is abstracted as an
oracle recording which calls succeed.  Every definition mirrors a named
function of the repository; line references point into the Python sources.
-/

/-! ## Data model (`bot/core/signal.py`, `bot/data/indicators.py`) -/

/-- Mirrors `TrendState` in `bot/core/signal.py`. -/
inductive TrendState
  | BULL
  | BEAR
  | NEUTRAL_BUFFER
  deriving DecidableEq

/-- Mirrors the `EligibleSignal` dataclass in `bot/core/signal.py`.
Scores are rationals, `liquidity_rank` an integer, `symbol` a string. -/
structure EligibleSignal where
  instrument_id : String
  symbol : String
  direction : String
  eval_timestamp : ℚ
  htf_trend_state : TrendState
  vol_expansion_score : ℚ
  trend_strength_score : ℚ
  liquidity_rank : ℤ
  deriving DecidableEq

/-- Mirrors the `IndicatorSnapshot` dataclass in `bot/data/indicators.py`.
The pandas timestamp is modelled by its numeric value; `atr_ma_ltf` keeps
its `Optional` type since `should_exit` branches on its truthiness. -/
structure IndicatorSnapshot where
  symbol : String
  timestamp : ℚ
  current_price : ℚ
  ema_200_htf : ℚ
  atr_htf : ℚ
  rsi_ltf : ℚ
  atr_ltf : ℚ
  atr_ma_ltf : Option ℚ
  atr_percentile_ltf : ℚ

/-- Fields of the active parameter bundle consumed by the evaluators
(`bot/data/models.py` `ParameterBundle`, duck-typed `bundle` arguments). -/
structure ParameterBundle where
  vol_gate_type : String
  atr_percentile_threshold : ℚ
  rsi_reference : ℚ
  atr_stop_multiplier : ℚ

/-! ## Risk engine (`bot/core/risk.py`) -/

/-- Mirrors the `TradePlan` dataclass in `bot/core/risk.py`. -/
structure TradePlan where
  symbol : String
  direction : String
  entry_price : ℚ
  stop_price : ℚ
  tp_price : ℚ
  qty : ℚ
  r_value : ℚ
  risk_amount : ℚ
  margin_required : ℚ
  capital_constrained : Bool
  deriving DecidableEq

/-- `RiskEngine.RISK_PERCENT` (0.5% of total equity), `bot/core/risk.py:23`. -/
def RISK_PERCENT : ℚ := 5 / 1000

/-- `RiskEngine.TP_R_MULTIPLIER` (TP is exactly 2R), `bot/core/risk.py:24`. -/
def TP_R_MULTIPLIER : ℚ := 2

/-- Mirrors `RiskEngine.calculate_trade_plan`, `bot/core/risk.py:26-84`. -/
def calculate_trade_plan (signal : EligibleSignal)
    (price atr_ltf atr_stop_multiplier total_equity available_equity : ℚ) :
    TradePlan :=
  let r_value := atr_ltf * atr_stop_multiplier
  let stop_price :=
    if signal.direction = "LONG" then price - r_value else price + r_value
  let tp_price :=
    if signal.direction = "LONG" then price + r_value * TP_R_MULTIPLIER
    else price - r_value * TP_R_MULTIPLIER
  let target_risk_amount := total_equity * RISK_PERCENT
  let ideal_qty := target_risk_amount / r_value
  let ideal_margin_required := ideal_qty * price
  let margin_to_use :=
    if ideal_margin_required > available_equity then available_equity
    else ideal_margin_required
  let capital_constrained := decide (ideal_margin_required > available_equity)
  let final_qty := margin_to_use / price
  let realised_risk := final_qty * r_value
  { symbol := signal.symbol
    direction := signal.direction
    entry_price := price
    stop_price := stop_price
    tp_price := tp_price
    qty := final_qty
    r_value := r_value
    risk_amount := realised_risk
    margin_required := margin_to_use
    capital_constrained := capital_constrained }

/-! ## Rounding (`bot/utils.py`, `bot/main.py:139-142`) -/

/-- Mirrors `round_step` in `bot/utils.py:4-22`: guard on a zero step,
otherwise floor the number of steps and scale back. -/
def round_step (value step_size : ℚ) : ℚ :=
  if step_size = 0 then value
  else (⌊value / step_size⌋ : ℤ) * step_size

/-- Mirrors the precision rounding applied to the trade plan before
submission, `bot/main.py:139-142`. -/
def apply_precision_rounding (plan : TradePlan) (stepSize tickSize : ℚ) :
    TradePlan :=
  { plan with
    qty := round_step plan.qty stepSize
    stop_price := round_step plan.stop_price tickSize
    tp_price := round_step plan.tp_price tickSize }

/-- Concrete LONG signal used to instantiate the spec's worked example. -/
def exSignalLong : EligibleSignal :=
  { instrument_id := "inst-eth"
    symbol := "ETHUSDT"
    direction := "LONG"
    eval_timestamp := 0
    htf_trend_state := .BULL
    vol_expansion_score := 1
    trend_strength_score := 1
    liquidity_rank := 1 }

/-- Concrete SHORT signal for witnesses on the mirrored branch. -/
def exSignalShort : EligibleSignal :=
  { instrument_id := "inst-btc"
    symbol := "BTCUSDT"
    direction := "SHORT"
    eval_timestamp := 0
    htf_trend_state := .BEAR
    vol_expansion_score := 1
    trend_strength_score := 1
    liquidity_rank := 1 }

/-- Claim C3: for a LONG signal with entry 3000, volatility 30, stop
multiplier 1.5 and equities 100000/100000, `calculate_trade_plan` returns
stop 2955, target 3090, risk 500, quantity 500/45, margin 100000/3 and an
unconstrained flag; in general stop = price − R and target = price + 2R for
LONG, mirrored for SHORT, with R = volatility × multiplier. -/
theorem calculate_trade_plan_levels (sig : EligibleSignal)
    (price atr mult te ae : ℚ) :
    (sig.direction = "LONG" →
      (calculate_trade_plan sig price atr mult te ae).stop_price =
          price - atr * mult ∧
      (calculate_trade_plan sig price atr mult te ae).tp_price =
          price + 2 * (atr * mult)) ∧
    (sig.direction = "SHORT" →
      (calculate_trade_plan sig price atr mult te ae).stop_price =
          price + atr * mult ∧
      (calculate_trade_plan sig price atr mult te ae).tp_price =
          price - 2 * (atr * mult)) ∧
    (sig.direction = "LONG" →
      (calculate_trade_plan sig 3000 30 (3/2) 100000 100000).stop_price = 2955 ∧
      (calculate_trade_plan sig 3000 30 (3/2) 100000 100000).tp_price = 3090 ∧
      (calculate_trade_plan sig 3000 30 (3/2) 100000 100000).risk_amount = 500 ∧
      (calculate_trade_plan sig 3000 30 (3/2) 100000 100000).qty = 500 / 45 ∧
      (calculate_trade_plan sig 3000 30 (3/2) 100000 100000).margin_required =
          100000 / 3 ∧
      (calculate_trade_plan sig 3000 30 (3/2) 100000 100000).capital_constrained =
          false) := by
  refine ⟨fun h => ?_, fun h => ?_, fun h => ?_⟩
  · simp [calculate_trade_plan, h, TP_R_MULTIPLIER]
    ring
  · simp [calculate_trade_plan, h, TP_R_MULTIPLIER]
    ring
  · norm_num [calculate_trade_plan, h, TP_R_MULTIPLIER, RISK_PERCENT]

/-- Witness for C3 at the spec's worked LONG example and the SHORT mirror. -/
theorem calculate_trade_plan_levels_witness :
    (calculate_trade_plan exSignalLong 3000 30 (3/2) 100000 100000).stop_price =
        2955 ∧
    (calculate_trade_plan exSignalLong 3000 30 (3/2) 100000 100000).tp_price =
        3090 ∧
    (calculate_trade_plan exSignalShort 3000 30 (3/2) 100000 100000).stop_price =
        3000 + 30 * (3/2) :=
  ⟨((calculate_trade_plan_levels exSignalLong 3000 30 (3/2) 100000 100000).2.2
      rfl).1,
   ((calculate_trade_plan_levels exSignalLong 3000 30 (3/2) 100000 100000).2.2
      rfl).2.1,
   ((calculate_trade_plan_levels exSignalShort 3000 30 (3/2) 100000 100000).2.1
      rfl).1⟩

/-- Claim C4: for positive sizing inputs the realised quantity never exceeds
the ideal quantity (0.5% of total equity divided by R) and the constrained
flag is true exactly when the realised margin is below the ideal margin; in
the spec's capital-constrained example (available equity 10000) the plan is
constrained with margin 10000, quantity 10/3 and realised risk 150. -/
theorem calculate_trade_plan_sizing (sig : EligibleSignal)
    (price atr mult te ae : ℚ)
    (hp : 0 < price) (hatr : 0 < atr) (hm : 0 < mult) (hae : 0 < ae) :
    (calculate_trade_plan sig price atr mult te ae).qty ≤
        te * (5/1000) / (atr * mult) ∧
    ((calculate_trade_plan sig price atr mult te ae).capital_constrained = true ↔
      (calculate_trade_plan sig price atr mult te ae).margin_required <
        te * (5/1000) / (atr * mult) * price) ∧
    ((calculate_trade_plan sig 3000 30 (3/2) 100000 10000).capital_constrained =
        true ∧
     (calculate_trade_plan sig 3000 30 (3/2) 100000 10000).margin_required =
        10000 ∧
     (calculate_trade_plan sig 3000 30 (3/2) 100000 10000).qty = 10 / 3 ∧
     (calculate_trade_plan sig 3000 30 (3/2) 100000 10000).risk_amount = 150) := by
  have hpne : price ≠ 0 := ne_of_gt hp
  constructor
  · simp only [calculate_trade_plan, RISK_PERCENT, gt_iff_lt]
    by_cases hc : ae < te * (5/1000) / (atr * mult) * price
    · rw [if_pos hc, div_le_iff₀ hp]
      exact le_of_lt hc
    · rw [if_neg hc, mul_div_cancel_right₀ _ hpne]
  constructor
  · simp only [calculate_trade_plan, RISK_PERCENT, gt_iff_lt, decide_eq_true_eq]
    by_cases hc : ae < te * (5/1000) / (atr * mult) * price
    · rw [if_pos hc]
    · rw [if_neg hc]
      exact iff_of_false hc (lt_irrefl _)
  · norm_num [calculate_trade_plan, RISK_PERCENT]

/-- Witness for C4 at the spec's capital-constrained example. -/
theorem calculate_trade_plan_sizing_witness :
    (calculate_trade_plan exSignalLong 3000 30 (3/2) 100000 10000).qty ≤
        (100000 : ℚ) * (5/1000) / (30 * (3/2)) ∧
    (calculate_trade_plan exSignalLong 3000 30 (3/2) 100000 10000).margin_required =
        10000 :=
  ⟨(calculate_trade_plan_sizing exSignalLong 3000 30 (3/2) 100000 10000
      (by norm_num) (by norm_num) (by norm_num) (by norm_num)).1,
   (calculate_trade_plan_sizing exSignalLong 3000 30 (3/2) 100000 10000
      (by norm_num) (by norm_num) (by norm_num) (by norm_num)).2.2.2.1⟩

/-- Claim C10: `round_step` with a step size of exactly zero returns the
value unchanged instead of dividing by zero. -/
theorem round_step_zero_step (v : ℚ) : round_step v 0 = v := by
  simp [round_step]

/-- Helper: evaluate `round_step` once the floor of `v / s` is pinned down. -/
theorem round_step_eval (v s : ℚ) (k : ℤ) (hs : s ≠ 0)
    (h1 : (k : ℚ) ≤ v / s) (h2 : v / s < k + 1) :
    round_step v s = k * s := by
  rw [round_step, if_neg hs, Int.floor_eq_iff.mpr ⟨h1, by exact_mod_cast h2⟩]

/-- Helper: floor rounding with a positive step never increases the value. -/
theorem round_step_le (v s : ℚ) (hs : 0 < s) : round_step v s ≤ v := by
  have hne : s ≠ 0 := ne_of_gt hs
  rw [round_step, if_neg hne]
  calc ((⌊v / s⌋ : ℤ) : ℚ) * s ≤ v / s * s :=
        mul_le_mul_of_nonneg_right (Int.floor_le _) (le_of_lt hs)
    _ = v := div_mul_cancel₀ v hne

/-- Helper: floor rounding is idempotent for a nonzero step. -/
theorem round_step_idem (v s : ℚ) (hs : 0 < s) :
    round_step (round_step v s) s = round_step v s := by
  have hne : s ≠ 0 := ne_of_gt hs
  have h1 : round_step v s = ((⌊v / s⌋ : ℤ) : ℚ) * s := by
    rw [round_step, if_neg hne]
  rw [h1, round_step, if_neg hne, mul_div_cancel_right₀ _ hne, Int.floor_intCast]

/-- Concrete plan: the spec's worked LONG example before precision rounding. -/
def exPlanLong : TradePlan :=
  calculate_trade_plan exSignalLong 3000 30 (3/2) 100000 100000

/-- Claim C7 (amended): `round_step` is idempotent for every positive
increment and never returns a value above its input, so the submission-time
rounding of `bot/main.py:139-142` never increases the quantity and only ever
moves the stop and take-profit prices downward; a downward stop move is the
risk-reducing direction for SHORT trades, but for LONG trades the stop is
moved away from the entry (see the counterexample for the original claim). -/
theorem round_step_monotone_floor (v s t : ℚ) (plan : TradePlan)
    (hs : 0 < s) (ht : 0 < t) :
    round_step (round_step v s) s = round_step v s ∧
    round_step v s ≤ v ∧
    (apply_precision_rounding plan s t).qty ≤ plan.qty ∧
    (apply_precision_rounding plan s t).stop_price ≤ plan.stop_price ∧
    (apply_precision_rounding plan s t).tp_price ≤ plan.tp_price :=
  ⟨round_step_idem v s hs, round_step_le v s hs,
   round_step_le plan.qty s hs, round_step_le plan.stop_price t ht,
   round_step_le plan.tp_price t ht⟩

/-- Witness for C7 (amended) at a concrete value and plan. -/
theorem round_step_monotone_floor_witness :
    round_step (round_step (7/3) (1/2)) (1/2) = round_step (7/3) (1/2) ∧
    round_step (7/3) (1/2) ≤ 7/3 :=
  ⟨(round_step_monotone_floor (7/3) (1/2) 1 exPlanLong (by norm_num)
      (by norm_num)).1,
   (round_step_monotone_floor (7/3) (1/2) 1 exPlanLong (by norm_num)
      (by norm_num)).2.1⟩

/-- Claim C7 counterexample: with tick size 10 the LONG stop 2955 of the
spec's worked plan is floored to 2950, away from the 3000 entry, so the
realised risk at the stop strictly increases (from 500 to 5000/9 × 45/50);
the original claim that rounding never moves a price in the risk-increasing
direction is therefore false on the code. -/
theorem round_step_long_stop_risk_counterexample :
    exPlanLong.direction = "LONG" ∧
    exPlanLong.stop_price = 2955 ∧
    (apply_precision_rounding exPlanLong (1/9) 10).stop_price = 2950 ∧
    (apply_precision_rounding exPlanLong (1/9) 10).qty *
        ((apply_precision_rounding exPlanLong (1/9) 10).entry_price -
          (apply_precision_rounding exPlanLong (1/9) 10).stop_price) >
      exPlanLong.qty * (exPlanLong.entry_price - exPlanLong.stop_price) := by
  have hplan : exPlanLong =
      { symbol := "ETHUSDT", direction := "LONG", entry_price := 3000,
        stop_price := 2955, tp_price := 3090, qty := 100/9, r_value := 45,
        risk_amount := 500, margin_required := 100000/3,
        capital_constrained := false } := by
    norm_num [exPlanLong, calculate_trade_plan, RISK_PERCENT, TP_R_MULTIPLIER,
      exSignalLong]
  have hstop : round_step 2955 10 = 2950 := by
    rw [round_step_eval 2955 10 295 (by norm_num) (by norm_num) (by norm_num)]
    norm_num
  have hqty : round_step (100/9) (1/9) = 100/9 := by
    rw [round_step_eval (100/9) (1/9) 100 (by norm_num) (by norm_num)
      (by norm_num)]
    norm_num
  rw [hplan]
  refine ⟨rfl, rfl, ?_, ?_⟩
  · simp only [apply_precision_rounding]
    rw [hstop]
  · simp only [apply_precision_rounding]
    rw [hstop, hqty]
    norm_num

/-! ## Execution orchestration (`bot/execution/manager.py`) -/

/-- Exchange calls issued by `ExecutionManager`, in submission order.
`reduceOnlyMarketClose` mirrors `ExchangeInterface.close_position_market`
(`bot/execution/exchange.py:89-100`, which always sets `reduceOnly=True`). -/
inductive OrderAction
  | ensureIsolated1x
  | marketEntry
  | stopLossOrder
  | takeProfitOrder
  | reduceOnlyMarketClose
  | cancelAllOrders
  deriving DecidableEq

/-- Outcome of `ExecutionManager.execute_trade`: returning `False`,
returning `True` (the PROTECTED terminal), or propagating a raised halt. -/
inductive ExecOutcome
  | returnedFalse
  | returnedTrue
  | raisedHalt
  deriving DecidableEq

/-- Oracle telling which exchange calls succeed during one execution. -/
structure ExchangeEnv where
  preflight_ok : Bool
  entry_ok : Bool
  sl_ok : Bool
  tp_ok : Bool
  close_ok : Bool
  cancel_ok : Bool

/-- Mirrors `ExecutionManager.handle_protection_failure`
(`bot/execution/manager.py:82-103`): the emergency close is submitted and a
failure of it is caught and only logged (lines 90-93), the cancel-all is
submitted with its failure swallowed (lines 96-99), and the halt exception
is raised unconditionally (line 103); hence the issued calls and the
outcome do not depend on the oracle's `close_ok`/`cancel_ok` bits. -/
def handle_protection_failure (env : ExchangeEnv) :
    List OrderAction × ExecOutcome :=
  ([.reduceOnlyMarketClose, .cancelAllOrders], .raisedHalt)

/-- Mirrors `ExecutionManager.execute_trade` (`bot/execution/manager.py:19-80`):
pre-flight, market entry, then the STOP and TP submissions gathered
together; if either protective task raised, `handle_protection_failure`
runs and its halt exception propagates (the `return False` on line 80 is
unreachable past the raise on line 103). -/
def execute_trade (env : ExchangeEnv) : List OrderAction × ExecOutcome :=
  if env.preflight_ok = false then ([.ensureIsolated1x], .returnedFalse)
  else if env.entry_ok = false then
    ([.ensureIsolated1x, .marketEntry], .returnedFalse)
  else if env.sl_ok = false ∨ env.tp_ok = false then
    ([.ensureIsolated1x, .marketEntry, .stopLossOrder, .takeProfitOrder] ++
        (handle_protection_failure env).1,
      (handle_protection_failure env).2)
  else
    ([.ensureIsolated1x, .marketEntry, .stopLossOrder, .takeProfitOrder],
      .returnedTrue)

/-- Claim C1: if, after a successful ENTRY submission, the STOP or TP
submission fails, `execute_trade` issues exactly one reduce-only market
close and exactly one cancel-all, propagates the raised halt whatever the
emergency close and cancel outcomes, and never returns success. -/
theorem execute_trade_protection_guarantee (pf en sl tp cl ca : Bool)
    (hpf : pf = true) (hen : en = true) (hfail : sl = false ∨ tp = false) :
    (execute_trade ⟨pf, en, sl, tp, cl, ca⟩).1.count .reduceOnlyMarketClose =
        1 ∧
    (execute_trade ⟨pf, en, sl, tp, cl, ca⟩).1.count .cancelAllOrders = 1 ∧
    (execute_trade ⟨pf, en, sl, tp, cl, ca⟩).2 = .raisedHalt ∧
    (execute_trade ⟨pf, en, sl, tp, cl, ca⟩).2 ≠ .returnedTrue := by
  subst hpf
  subst hen
  rcases hfail with h | h <;> subst h
  · revert tp cl ca
    decide
  · revert sl cl ca
    decide

/-- Witness for C1: STOP fails and the emergency close also fails; the halt
is still raised and exactly one reduce-only close was issued. -/
theorem execute_trade_protection_guarantee_witness :
    (execute_trade
        ⟨true, true, false, true, false, true⟩).1.count .reduceOnlyMarketClose =
      1 ∧
    (execute_trade ⟨true, true, false, true, false, true⟩).2 = .raisedHalt :=
  ⟨(execute_trade_protection_guarantee true true false true false true rfl rfl
      (Or.inl rfl)).1,
   (execute_trade_protection_guarantee true true false true false true rfl rfl
      (Or.inl rfl)).2.2.1⟩

/-! ## Halt flag and the 15m cycle (`bot/main.py`, `bot/data/store.py`) -/

/-- Mirrors the `SystemHaltState` row (`bot/data/models.py:255-259`) read by
`DataStore.is_system_halted`. -/
structure SystemHaltState where
  is_halted : Bool
  deriving DecidableEq

/-- Mirrors `DataStore.is_system_halted` (`bot/data/store.py:55-59`). -/
def is_system_halted (st : SystemHaltState) : Bool := st.is_halted

/-- Events a 15m cycle can run into, abstracting the body of
`MomentumBot.on_15m_close` from the halt flag's point of view. -/
inductive CycleEvent
  | protectionFailure
  | safetyViolation
  | normalCycle
  deriving DecidableEq

/-- How a cycle of `MomentumBot.on_15m_close` ends: the halted early return
(main.py:95-97), the generic exception handler that logs the propagated
"SYSTEM HALTED" exception (main.py:206-207), the `SafetyHaltException`
handler that logs and notifies (main.py:202-205, whose "Set system halt in
DB or simple flag" comment has no accompanying code), or a normal finish. -/
inductive CycleResult
  | skippedHalted
  | loggedError
  | loggedSafetyHalt
  | completed
  deriving DecidableEq

/-- Mirrors the halt-flag behaviour of `MomentumBot.on_15m_close`
(`bot/main.py:88-207`): the flag is read once at line 95 and no path of the
method - nor any other code in the repository - ever writes
`SystemHaltState`, so every branch returns the store state unchanged. -/
def on_15m_close (st : SystemHaltState) (ev : CycleEvent) :
    CycleResult × SystemHaltState :=
  if is_system_halted st then (.skippedHalted, st)
  else
    match ev with
    | .protectionFailure => (.loggedError, st)
    | .safetyViolation => (.loggedSafetyHalt, st)
    | .normalCycle => (.completed, st)

/-- Claim C2 is a code bug: after a cycle that hits a protection failure or
a safety invariant violation the process-wide halt flag is still clear, and
the next cycle does not refuse new-entry evaluation - the write of the halt
flag demanded by the claim and the spec exists nowhere in the repository. -/
theorem halt_flag_never_set :
    (on_15m_close ⟨false⟩ .protectionFailure).2.is_halted = false ∧
    (on_15m_close ⟨false⟩ .safetyViolation).2.is_halted = false ∧
    (on_15m_close (on_15m_close ⟨false⟩ .protectionFailure).2 .normalCycle).1 ≠
      .skippedHalted ∧
    (on_15m_close (on_15m_close ⟨false⟩ .safetyViolation).2 .normalCycle).1 =
      .completed := by
  decide

/-! ## Selector (`bot/core/selection.py`) -/

/-- One step of Python's stable `list.sort`: `a` is placed before the first
element it compares `cmp`-true against, after all `cmp`-false ones. -/
def insertK {α : Type} (cmp : α → α → Bool) (a : α) : List α → List α
  | [] => [a]
  | b :: l => if cmp a b then a :: b :: l else b :: insertK cmp a l

/-- Stable sort modelling Python's `list.sort(key=...)`: later elements are
inserted into the sorted earlier suffix, and a reflexive `cmp` keeps ties
in input order, which is exactly CPython's stability guarantee. -/
def sortK {α : Type} (cmp : α → α → Bool) : List α → List α
  | [] => []
  | a :: l => insertK cmp a (sortK cmp l)

/-- Ascending key `x.symbol` (`selection.py:26`, fallback level 4). -/
def symbol_le (a b : EligibleSignal) : Bool := decide (a.symbol ≤ b.symbol)

/-- Ascending key `x.liquidity_rank` (`selection.py:29`, level 3). -/
def liq_rank_le (a b : EligibleSignal) : Bool :=
  decide (a.liquidity_rank ≤ b.liquidity_rank)

/-- Descending key `x.vol_expansion_score` (`selection.py:32`, level 2). -/
def vol_ge (a b : EligibleSignal) : Bool :=
  decide (b.vol_expansion_score ≤ a.vol_expansion_score)

/-- Descending key `x.trend_strength_score` (`selection.py:35`, level 1). -/
def trend_ge (a b : EligibleSignal) : Bool :=
  decide (b.trend_strength_score ≤ a.trend_strength_score)

/-- Mirrors `Selector.select_best_signal` (`bot/core/selection.py:9-37`).
The Python method sorts the caller's list in place four times (stable, in
reverse priority order) and returns its new first element; the pair returns
the method's return value together with the caller's list after the call. -/
def select_best_signal (signals : List EligibleSignal) :
    Option EligibleSignal × List EligibleSignal :=
  if signals = [] then (none, signals)
  else
    ((sortK trend_ge (sortK vol_ge (sortK liq_rank_le
        (sortK symbol_le signals)))).head?,
      sortK trend_ge (sortK vol_ge (sortK liq_rank_le (sortK symbol_le signals))))

/-- Helper: insertion produces a permutation of consing. -/
theorem insertK_perm {α : Type} (cmp : α → α → Bool) (a : α) :
    ∀ l : List α, (insertK cmp a l).Perm (a :: l)
  | [] => by simp [insertK]
  | b :: l => by
    simp only [insertK]
    by_cases h : cmp a b = true
    · rw [if_pos h]
    · rw [if_neg h]
      exact ((insertK_perm cmp a l).cons b).trans (List.Perm.swap a b l)

/-- Helper: `sortK` permutes its input. -/
theorem sortK_perm {α : Type} (cmp : α → α → Bool) :
    ∀ l : List α, (sortK cmp l).Perm l
  | [] => by simp [sortK]
  | a :: l => by
    simp only [sortK]
    exact (insertK_perm cmp a (sortK cmp l)).trans ((sortK_perm cmp l).cons a)

/-- Helper, the stability argument: inserting `a` into a list whose pairs
already satisfy the refined order, where `a` precedes every element of the
list in the previous-stage order `s`, keeps every pair refined: a pair is
either strictly `cmp`-ordered or a `cmp`-tie kept in `s`-order. -/
theorem pairwise_insertK {α : Type} (cmp : α → α → Bool)
    (htot : ∀ a b, cmp a b = true ∨ cmp b a = true)
    (htrans : ∀ a b c, cmp a b = true → cmp b c = true → cmp a c = true)
    (s : α → α → Prop) (a : α) :
    ∀ L : List α,
      L.Pairwise (fun x y => cmp x y = true ∧ (cmp y x = true → s x y)) →
      (∀ b ∈ L, s a b) →
      (insertK cmp a L).Pairwise
        (fun x y => cmp x y = true ∧ (cmp y x = true → s x y))
  | [], _, _ => by simp [insertK]
  | b :: M, hL, ha => by
    rw [List.pairwise_cons] at hL
    obtain ⟨hbM, hM⟩ := hL
    simp only [insertK]
    by_cases hab : cmp a b = true
    · rw [if_pos hab]
      refine List.Pairwise.cons ?_ (List.Pairwise.cons hbM hM)
      intro z hz
      rcases List.mem_cons.mp hz with rfl | hzM
      · exact ⟨hab, fun _ => ha z (List.mem_cons_self _ _)⟩
      · exact ⟨htrans a b z hab (hbM z hzM).1,
          fun _ => ha z (List.mem_cons_of_mem _ hzM)⟩
    · rw [if_neg hab]
      refine List.Pairwise.cons ?_
        (pairwise_insertK cmp htot htrans s a M hM
          (fun c hc => ha c (List.mem_cons_of_mem _ hc)))
      intro z hz
      rcases List.mem_cons.mp ((insertK_perm cmp a M).mem_iff.mp hz) with
        rfl | hzM
      · exact ⟨Or.resolve_left (htot z b) hab, fun h => absurd h hab⟩
      · exact hbM z hzM

/-- Helper: one stable sort refines the order established so far. -/
theorem pairwise_sortK {α : Type} (cmp : α → α → Bool)
    (htot : ∀ a b, cmp a b = true ∨ cmp b a = true)
    (htrans : ∀ a b c, cmp a b = true → cmp b c = true → cmp a c = true)
    (s : α → α → Prop) :
    ∀ l : List α, l.Pairwise s →
      (sortK cmp l).Pairwise
        (fun x y => cmp x y = true ∧ (cmp y x = true → s x y))
  | [], _ => by simp [sortK]
  | a :: l, h => by
    rw [List.pairwise_cons] at h
    obtain ⟨hal, hl⟩ := h
    simp only [sortK]
    exact pairwise_insertK cmp htot htrans s a (sortK cmp l)
      (pairwise_sortK cmp htot htrans s l hl)
      (fun b hb => hal b ((sortK_perm cmp l).mem_iff.mp hb))

/-- The four-level selection order of PBC 9.2: `x` is at least as good as
`y` when it wins or ties every successive tie-break level (higher trend
strength, then higher volatility expansion, then lower liquidity rank,
then lexicographically smaller symbol). -/
def better_or_tied (x y : EligibleSignal) : Prop :=
  y.trend_strength_score ≤ x.trend_strength_score ∧
  (x.trend_strength_score ≤ y.trend_strength_score →
    y.vol_expansion_score ≤ x.vol_expansion_score ∧
    (x.vol_expansion_score ≤ y.vol_expansion_score →
      x.liquidity_rank ≤ y.liquidity_rank ∧
      (y.liquidity_rank ≤ x.liquidity_rank → x.symbol ≤ y.symbol)))

/-- Helper: the selection order is reflexive. -/
theorem better_or_tied_refl (x : EligibleSignal) : better_or_tied x x := by
  unfold better_or_tied
  exact ⟨le_refl _, fun _ => ⟨le_refl _, fun _ => ⟨le_refl _,
    fun _ => le_refl _⟩⟩⟩

/-- Helper: two signals each at least as good as the other tie on every
level, in particular on the symbol. -/
theorem better_or_tied_symbol_eq (x y : EligibleSignal)
    (h1 : better_or_tied x y) (h2 : better_or_tied y x) :
    x.symbol = y.symbol := by
  unfold better_or_tied at h1 h2
  obtain ⟨ht1, hrest1⟩ := h1
  obtain ⟨ht2, hrest2⟩ := h2
  obtain ⟨hv1, hrest1⟩ := hrest1 ht2
  obtain ⟨hv2, hrest2⟩ := hrest2 ht1
  obtain ⟨hr1, hrest1⟩ := hrest1 hv2
  obtain ⟨hr2, hrest2⟩ := hrest2 hv1
  exact le_antisymm (hrest1 hr2) (hrest2 hr1)

/-- Helper: the four successive stable sorts leave the list pairwise
ordered by the four-level selection order. -/
theorem select_sorted_pairwise (l : List EligibleSignal) :
    (sortK trend_ge (sortK vol_ge (sortK liq_rank_le
        (sortK symbol_le l)))).Pairwise better_or_tied := by
  have h0 : l.Pairwise (fun _ _ => True) := by
    induction l with
    | nil => exact List.Pairwise.nil
    | cons a t ih => exact List.Pairwise.cons (fun _ _ => trivial) ih
  have h1 := pairwise_sortK symbol_le
    (fun a b => by
      simp only [symbol_le, decide_eq_true_eq]
      exact le_total _ _)
    (fun a b c hab hbc => by
      simp only [symbol_le, decide_eq_true_eq] at *
      exact le_trans hab hbc) _ l h0
  have h2 := pairwise_sortK liq_rank_le
    (fun a b => by
      simp only [liq_rank_le, decide_eq_true_eq]
      exact le_total _ _)
    (fun a b c hab hbc => by
      simp only [liq_rank_le, decide_eq_true_eq] at *
      exact le_trans hab hbc) _ _ h1
  have h3 := pairwise_sortK vol_ge
    (fun a b => by
      simp only [vol_ge, decide_eq_true_eq]
      exact le_total _ _)
    (fun a b c hab hbc => by
      simp only [vol_ge, decide_eq_true_eq] at *
      exact le_trans hbc hab) _ _ h2
  have h4 := pairwise_sortK trend_ge
    (fun a b => by
      simp only [trend_ge, decide_eq_true_eq]
      exact le_total _ _)
    (fun a b c hab hbc => by
      simp only [trend_ge, decide_eq_true_eq] at *
      exact le_trans hbc hab) _ _ h3
  refine h4.imp ?_
  intro x y hxy
  simp only [trend_ge, vol_ge, liq_rank_le, symbol_le, decide_eq_true_eq] at hxy
  unfold better_or_tied
  tauto

/-- Helper: the composite of the four stable sorts permutes the input. -/
theorem select_sorted_perm (l : List EligibleSignal) :
    (sortK trend_ge (sortK vol_ge (sortK liq_rank_le
        (sortK symbol_le l)))).Perm l :=
  (sortK_perm trend_ge _).trans ((sortK_perm vol_ge _).trans
    ((sortK_perm liq_rank_le _).trans (sortK_perm symbol_le l)))

/-- Helper: on a nonempty input the selector returns a member that is at
least as good as every member. -/
theorem select_best_signal_some (l : List EligibleSignal) (hne : l ≠ []) :
    ∃ x, (select_best_signal l).1 = some x ∧ x ∈ l ∧
      ∀ y ∈ l, better_or_tied x y := by
  have hperm := select_sorted_perm l
  have hpw := select_sorted_pairwise l
  rcases hs : sortK trend_ge (sortK vol_ge (sortK liq_rank_le
      (sortK symbol_le l))) with _ | ⟨x, t⟩
  · rw [hs] at hperm
    exact absurd (List.nil_perm.mp hperm) hne
  · rw [hs] at hperm hpw
    rw [List.pairwise_cons] at hpw
    refine ⟨x, ?_, ?_, ?_⟩
    · rw [select_best_signal, if_neg hne]
      simp [hs]
    · exact hperm.mem_iff.mp (List.mem_cons_self _ _)
    · intro y hy
      rcases List.mem_cons.mp (hperm.mem_iff.mpr hy) with rfl | hyt
      · exact better_or_tied_refl y
      · exact hpw.1 y hyt

/-- Claim C5 (amended): the selector returns none exactly on the empty
list; any returned signal is a member of the input that is at least as good
as every member under the four-level ordering; and when the candidates'
symbols are pairwise distinct the returned value is the same for every
permutation of the input. -/
theorem select_best_signal_spec (l : List EligibleSignal) :
    ((select_best_signal l).1 = none ↔ l = []) ∧
    (∀ x, (select_best_signal l).1 = some x →
      x ∈ l ∧ ∀ y ∈ l, better_or_tied x y) ∧
    (l.Pairwise (fun a b => a.symbol ≠ b.symbol) →
      ∀ l', l.Perm l' →
        (select_best_signal l).1 = (select_best_signal l').1) := by
  refine ⟨⟨?_, ?_⟩, ?_, ?_⟩
  · intro h
    by_contra hne
    obtain ⟨x, hx, _, _⟩ := select_best_signal_some l hne
    rw [h] at hx
    exact Option.noConfusion hx
  · intro h
    subst h
    simp [select_best_signal]
  · intro x hx
    by_cases hne : l = []
    · subst hne
      simp [select_best_signal] at hx
    · obtain ⟨x', hx', hmem, hmax⟩ := select_best_signal_some l hne
      rw [hx] at hx'
      obtain rfl := Option.some.inj hx'
      exact ⟨hmem, hmax⟩
  · intro hdist l' hp
    by_cases hne : l = []
    · subst hne
      rw [List.nil_perm.mp hp]
    · have hne' : l' ≠ [] := fun h => hne (List.perm_nil.mp (h ▸ hp))
      obtain ⟨x, hx, hmem, hmax⟩ := select_best_signal_some l hne
      obtain ⟨x', hx', hmem', hmax'⟩ := select_best_signal_some l' hne'
      rw [hx, hx']
      by_cases hxx : x = x'
      · rw [hxx]
      · have h1 : better_or_tied x x' := hmax x' (hp.mem_iff.mpr hmem')
        have h2 : better_or_tied x' x := hmax' x (hp.mem_iff.mp hmem)
        have hsymeq := better_or_tied_symbol_eq x x' h1 h2
        have hsymm : Symmetric (fun a b : EligibleSignal =>
            a.symbol ≠ b.symbol) := by
          intro a b h e
          exact h e.symm
        have hsymne : x.symbol ≠ x'.symbol :=
          List.Pairwise.forall hsymm hdist hmem (hp.mem_iff.mpr hmem') hxx
        exact absurd hsymeq hsymne

/-- Witness for C5 (amended): permutation invariance on a concrete pair of
signals with distinct symbols, obtained from the theorem itself. -/
theorem select_best_signal_spec_witness :
    [exSignalLong, exSignalShort].Pairwise
      (fun a b => a.symbol ≠ b.symbol) ∧
    (select_best_signal [exSignalLong, exSignalShort]).1 =
      (select_best_signal [exSignalShort, exSignalLong]).1 := by
  have hd : [exSignalLong, exSignalShort].Pairwise
      (fun a b => a.symbol ≠ b.symbol) := by
    simp [exSignalLong, exSignalShort]
  exact ⟨hd, (select_best_signal_spec [exSignalLong, exSignalShort]).2.2 hd
    [exSignalShort, exSignalLong]
    (List.Perm.swap exSignalShort exSignalLong [])⟩

/-- Two fully tied candidates that differ only in `instrument_id`. -/
def sigDupA : EligibleSignal :=
  { instrument_id := "inst-1"
    symbol := "AAA"
    direction := "LONG"
    eval_timestamp := 0
    htf_trend_state := .BULL
    vol_expansion_score := 1
    trend_strength_score := 1
    liquidity_rank := 1 }

/-- Second tied candidate, see `sigDupA`. -/
def sigDupB : EligibleSignal :=
  { instrument_id := "inst-2"
    symbol := "AAA"
    direction := "LONG"
    eval_timestamp := 0
    htf_trend_state := .BULL
    vol_expansion_score := 1
    trend_strength_score := 1
    liquidity_rank := 1 }

/-- Candidate tied with `sigDupA` except for a higher trend strength. -/
def sigStrong : EligibleSignal :=
  { instrument_id := "inst-3"
    symbol := "AAA"
    direction := "LONG"
    eval_timestamp := 0
    htf_trend_state := .BULL
    vol_expansion_score := 1
    trend_strength_score := 2
    liquidity_rank := 1 }

/-- Helper: evaluation of the selector on a pair the sorts keep in order. -/
theorem select_pair_keep (u v : EligibleSignal)
    (h1 : symbol_le u v = true) (h2 : liq_rank_le u v = true)
    (h3 : vol_ge u v = true) (h4 : trend_ge u v = true) :
    select_best_signal [u, v] = (some u, [u, v]) := by
  have hne : ([u, v] : List EligibleSignal) ≠ [] := by simp
  rw [select_best_signal, if_neg hne]
  simp [sortK, insertK, h1, h2, h3, h4]

/-- Helper: evaluation of the selector on a pair the trend sort swaps. -/
theorem select_pair_swap (u v : EligibleSignal)
    (h1 : symbol_le u v = true) (h2 : liq_rank_le u v = true)
    (h3 : vol_ge u v = true) (h4 : trend_ge u v = false) :
    select_best_signal [u, v] = (some v, [v, u]) := by
  have hne : ([u, v] : List EligibleSignal) ≠ [] := by simp
  rw [select_best_signal, if_neg hne]
  simp [sortK, insertK, h1, h2, h3, h4]

/-- Claim C5 counterexample: two distinct candidates tied on all four
levels (equal symbol included); the selector returns whichever comes
first, so two permutations of the same multiset give different results and
the original unconditional order-independence claim is false. -/
theorem select_best_signal_permutation_counterexample :
    [sigDupA, sigDupB].Perm [sigDupB, sigDupA] ∧
    (select_best_signal [sigDupA, sigDupB]).1 = some sigDupA ∧
    (select_best_signal [sigDupB, sigDupA]).1 = some sigDupB ∧
    sigDupA ≠ sigDupB := by
  have hsAB : symbol_le sigDupA sigDupB = true := by
    simp [symbol_le, sigDupA, sigDupB]
  have hsBA : symbol_le sigDupB sigDupA = true := by
    simp [symbol_le, sigDupA, sigDupB]
  have hrAB : liq_rank_le sigDupA sigDupB = true := by
    simp [liq_rank_le, sigDupA, sigDupB]
  have hrBA : liq_rank_le sigDupB sigDupA = true := by
    simp [liq_rank_le, sigDupA, sigDupB]
  have hvAB : vol_ge sigDupA sigDupB = true := by
    simp [vol_ge, sigDupA, sigDupB]
  have hvBA : vol_ge sigDupB sigDupA = true := by
    simp [vol_ge, sigDupA, sigDupB]
  have htAB : trend_ge sigDupA sigDupB = true := by
    simp [trend_ge, sigDupA, sigDupB]
  have htBA : trend_ge sigDupB sigDupA = true := by
    simp [trend_ge, sigDupA, sigDupB]
  refine ⟨List.Perm.swap sigDupB sigDupA [], ?_, ?_, ?_⟩
  · rw [select_pair_keep sigDupA sigDupB hsAB hrAB hvAB htAB]
  · rw [select_pair_keep sigDupB sigDupA hsBA hrBA hvBA htBA]
  · simp [sigDupA, sigDupB]

/-- Claim C9 (amended): the selector's return value is the head of the
sorted list and the caller's list after the call is a permutation of the
input - the elements are preserved as a multiset, but the call sorts the
caller's list in place rather than leaving it untouched. -/
theorem select_best_signal_frame (l : List EligibleSignal) :
    (select_best_signal l).2.Perm l ∧
    (select_best_signal l).1 = (select_best_signal l).2.head? := by
  by_cases hne : l = []
  · subst hne
    simp [select_best_signal]
  · rw [select_best_signal, if_neg hne]
    exact ⟨select_sorted_perm l, rfl⟩

/-- Claim C9 counterexample: a caller's list whose order the call changes;
with a lower-trend candidate first, the in-place sorts leave the caller's
list reordered, refuting the claim that the list is left unchanged. -/
theorem select_best_signal_mutation_counterexample :
    (select_best_signal [sigDupA, sigStrong]).2 ≠ [sigDupA, sigStrong] := by
  have hs : symbol_le sigDupA sigStrong = true := by
    simp [symbol_le, sigDupA, sigStrong]
  have hr : liq_rank_le sigDupA sigStrong = true := by
    simp [liq_rank_le, sigDupA, sigStrong]
  have hv : vol_ge sigDupA sigStrong = true := by
    simp [vol_ge, sigDupA, sigStrong]
  have ht : trend_ge sigDupA sigStrong = false := by
    simp only [trend_ge, sigDupA, sigStrong]
    norm_num
  rw [select_pair_swap sigDupA sigStrong hs hr hv ht]
  simp [sigDupA, sigStrong]

/-! ## Signal engine and regime exit (`bot/core/signal.py`,
`bot/execution/regime_exit.py`) -/

/-- `SignalEngine.BUFFER_MULTIPLIER` (`bot/core/signal.py:31`). -/
def BUFFER_MULTIPLIER : ℚ := 1/2

/-- Mirrors `SignalEngine.evaluate_trend` (`bot/core/signal.py:33-44`). -/
def evaluate_trend (price ema_200 atr_htf : ℚ) : TrendState :=
  if price > ema_200 + BUFFER_MULTIPLIER * atr_htf then .BULL
  else if price < ema_200 - BUFFER_MULTIPLIER * atr_htf then .BEAR
  else .NEUTRAL_BUFFER

/-- Mirrors `SignalEngine.check_volatility_gate` (`bot/core/signal.py:46-54`);
the Python truthiness test `snapshot.atr_ma_ltf if snapshot.atr_ma_ltf
else 0` maps both `None` and `0.0` to 0. -/
def check_volatility_gate (snapshot : IndicatorSnapshot)
    (bundle : ParameterBundle) : Bool :=
  if bundle.vol_gate_type = "ATR_GT_ATRMA" then
    decide (snapshot.atr_ltf >
      (match snapshot.atr_ma_ltf with
       | some x => if x = 0 then 0 else x
       | none => 0))
  else if bundle.vol_gate_type = "ATR_PERCENTILE" then
    decide (snapshot.atr_percentile_ltf ≥ bundle.atr_percentile_threshold)
  else false

/-- Fields of the open `Position` record read by the regime-exit evaluator
(`bot/execution/regime_exit.py:50-71`). -/
structure Position where
  symbol : String
  direction : String
  qty_filled : ℚ

/-- Mirrors `ExitReason` in `bot/execution/regime_exit.py:6-13`. -/
inductive ExitReason
  | TP
  | SL
  | TREND_INVALID
  | VOL_CONTRACTION
  | MOMENTUM_FAIL
  | FUNDING_EXTREME
  | SAFETY_HALT
  deriving DecidableEq

/-- `FUNDING_EXTREME_THRESHOLD` (`bot/execution/regime_exit.py:68`). -/
def FUNDING_EXTREME_THRESHOLD : ℚ := 1/1000

/-- Mirrors `RegimeExitEngine.should_exit`
(`bot/execution/regime_exit.py:23-74`).  Line 36 of the source passes
`snapshot.timestamp` - not the live price - to the trend classifier; the
embedding keeps that argument faithfully (the timestamp modelled by its
numeric value). -/
def should_exit (current_position : Position)
    (snapshot : IndicatorSnapshot) (bundle : ParameterBundle)
    (funding_rate : ℚ) : Bool × Option ExitReason :=
  let trend_state :=
    evaluate_trend snapshot.timestamp snapshot.ema_200_htf snapshot.atr_htf
  if check_volatility_gate snapshot bundle = false then
    (true, some .VOL_CONTRACTION)
  else
    let momentum_fail :=
      if current_position.direction = "LONG" then
        decide (snapshot.rsi_ltf < bundle.rsi_reference)
      else
        decide (snapshot.rsi_ltf > 100 - bundle.rsi_reference)
    if momentum_fail = true then (true, some .MOMENTUM_FAIL)
    else if current_position.direction = "LONG" ∧ trend_state = .BEAR then
      (true, some .TREND_INVALID)
    else if current_position.direction = "SHORT" ∧ trend_state = .BULL then
      (true, some .TREND_INVALID)
    else if current_position.direction = "LONG" ∧
        funding_rate < -FUNDING_EXTREME_THRESHOLD then
      (true, some .FUNDING_EXTREME)
    else if current_position.direction = "SHORT" ∧
        funding_rate > FUNDING_EXTREME_THRESHOLD then
      (true, some .FUNDING_EXTREME)
    else (false, none)

/-- Concrete LONG position for the regime-exit scenarios. -/
def exPosLong : Position :=
  { symbol := "ETHUSDT", direction := "LONG", qty_filled := 1 }

/-- Bundle with the ATR-versus-MA volatility gate and RSI reference 50. -/
def exBundle : ParameterBundle :=
  { vol_gate_type := "ATR_GT_ATRMA"
    atr_percentile_threshold := 50
    rsi_reference := 50
    atr_stop_multiplier := 3/2 }

/-- Snapshot whose volatility gate fails (ATR 1 below its MA 5) while LONG
momentum is also misaligned (RSI 40 below the reference 50). -/
def exSnapshotGateFail : IndicatorSnapshot :=
  { symbol := "ETHUSDT"
    timestamp := 1
    current_price := 200
    ema_200_htf := 100
    atr_htf := 10
    rsi_ltf := 40
    atr_ltf := 1
    atr_ma_ltf := some 5
    atr_percentile_ltf := 0 }

/-- Snapshot whose gate and momentum pass, whose live price (200) is above
the EMA band [95, 105] but whose timestamp value (1) is below it. -/
def exSnapshotTsBug : IndicatorSnapshot :=
  { symbol := "ETHUSDT"
    timestamp := 1
    current_price := 200
    ema_200_htf := 100
    atr_htf := 10
    rsi_ltf := 60
    atr_ltf := 5
    atr_ma_ltf := some 1
    atr_percentile_ltf := 0 }

/-- Claim C8: the regime-exit evaluator returns the first true condition in
the fixed priority order; whenever the volatility gate fails - in
particular when momentum is misaligned at the same time - it reports
VOL_CONTRACTION, never MOMENTUM_FAIL, and a call never carries more than
one exit reason. -/
theorem should_exit_priority (pos : Position)
    (snapshot : IndicatorSnapshot) (bundle : ParameterBundle)
    (funding_rate : ℚ)
    (hvol : check_volatility_gate snapshot bundle = false)
    (hmom : (pos.direction = "LONG" ∧
        snapshot.rsi_ltf < bundle.rsi_reference) ∨
      (pos.direction ≠ "LONG" ∧
        snapshot.rsi_ltf > 100 - bundle.rsi_reference)) :
    should_exit pos snapshot bundle funding_rate =
      (true, some .VOL_CONTRACTION) ∧
    (should_exit pos snapshot bundle funding_rate).2 ≠
      some .MOMENTUM_FAIL ∧
    ∀ r1 r2 : ExitReason,
      (should_exit pos snapshot bundle funding_rate).2 = some r1 →
      (should_exit pos snapshot bundle funding_rate).2 = some r2 →
        r1 = r2 := by
  have h : should_exit pos snapshot bundle funding_rate =
      (true, some .VOL_CONTRACTION) := by
    simp [should_exit, hvol]
  refine ⟨h, ?_, ?_⟩
  · rw [h]
    simp
  · intro r1 r2 h1 h2
    rw [h1] at h2
    exact Option.some.inj h2

/-- Witness for C8: gate failure and misaligned LONG momentum together
still yield VOL_CONTRACTION. -/
theorem should_exit_priority_witness :
    check_volatility_gate exSnapshotGateFail exBundle = false ∧
    should_exit exPosLong exSnapshotGateFail exBundle 0 =
      (true, some .VOL_CONTRACTION) := by
  have hvol : check_volatility_gate exSnapshotGateFail exBundle = false := by
    norm_num [check_volatility_gate, exSnapshotGateFail, exBundle]
  have hmom : (exPosLong.direction = "LONG" ∧
      exSnapshotGateFail.rsi_ltf < exBundle.rsi_reference) ∨
    (exPosLong.direction ≠ "LONG" ∧
      exSnapshotGateFail.rsi_ltf > 100 - exBundle.rsi_reference) :=
    Or.inl ⟨rfl, by norm_num [exSnapshotGateFail, exBundle]⟩
  exact ⟨hvol,
    (should_exit_priority exPosLong exSnapshotGateFail exBundle 0 hvol
      hmom).1⟩

/-- Claim C6 is a code bug: `should_exit` classifies the higher-timeframe
trend from `snapshot.timestamp` (regime_exit.py:36) instead of the live
price; at this input the live price classifies BULL - no trend
invalidation for a LONG - but the evaluator exits with TREND_INVALID
because the timestamp value lies below the band. -/
theorem should_exit_timestamp_trend_bug :
    evaluate_trend exSnapshotTsBug.current_price exSnapshotTsBug.ema_200_htf
        exSnapshotTsBug.atr_htf = .BULL ∧
    evaluate_trend exSnapshotTsBug.timestamp exSnapshotTsBug.ema_200_htf
        exSnapshotTsBug.atr_htf = .BEAR ∧
    should_exit exPosLong exSnapshotTsBug exBundle 0 =
      (true, some .TREND_INVALID) := by
  refine ⟨?_, ?_, ?_⟩
  · norm_num [evaluate_trend, exSnapshotTsBug, BUFFER_MULTIPLIER]
  · norm_num [evaluate_trend, exSnapshotTsBug, BUFFER_MULTIPLIER]
  · norm_num [should_exit, evaluate_trend, check_volatility_gate, exPosLong,
      exSnapshotTsBug, exBundle, BUFFER_MULTIPLIER, FUNDING_EXTREME_THRESHOLD]
